import Mathlib

/-!
# SimpleMessenger.h: Pipe and EntityMessenger bookkeeping

A shallow embedding of the inline member functions of `Rank::Pipe` and
`Rank::EntityMessenger` (`src/trunk/ceph/msg/SimpleMessenger.h`).

* The queues are `list<Message*>`: they hold pointers.  A pointer is a
  `MsgPtr`, the messages themselves live in a `Heap`, and a member call
  `m->f(..)` updates the heap at `m`.
* `__u32` counters are natural numbers reduced modulo `2^32` at every
  increment; `int` counters are integers reduced to the 32-bit two's
  complement range at every operation.
* A function that mutates `*this` and a message takes the object and the heap
  and returns both.
-/

namespace SimpleMessenger

/-! ## Types declared outside this header -/

/-- Modelled from the spec: `utime_t`, a clock reading.  The type is declared in a
header that is not among the sources; only equality of readings is used. -/
abbrev utime_t := Nat

/-- Modelled from the spec: `entity_name_t`, the identity of a message source.  The
type is declared in a header that is not among the sources; the spec speaks of a
"privileged/priority source class", which `is_mon()` tests. -/
structure entity_name_t where
  mon : Bool
  num : Nat
  deriving DecidableEq, Repr

/-- Modelled from the spec: `entity_name_t::is_mon()`, true for a source of the
monitor (priority) class. -/
def entity_name_t.is_mon (n : entity_name_t) : Bool := n.mon

/-- Modelled from the spec: `Message` (declared in `Message.h`, not among the
sources): "an opaque serializable unit exposing: source identity, ... and a
mutable sequence-number field the Connection sets before transmission", together
with the receive stamp set on enqueue. -/
structure Message where
  seq : Nat
  recv_stamp : utime_t
  source : entity_name_t
  deriving DecidableEq, Repr

/-- Modelled from the spec: `Message::set_seq(s)` stores `s` in the sequence-number
field. -/
def Message.set_seq (m : Message) (s : Nat) : Message := { m with seq := s }

/-- Modelled from the spec: `Message::set_recv_stamp(t)` stores the receive stamp. -/
def Message.set_recv_stamp (m : Message) (t : utime_t) : Message := { m with recv_stamp := t }

/-- Modelled from the spec: `Message::get_source()` returns the source identity. -/
def Message.get_source (m : Message) : entity_name_t := m.source

/-- A `Message*`. -/
abbrev MsgPtr := Nat

/-- The messages the pointers point at. -/
abbrev Heap := MsgPtr → Message

/-- The effect of `m->set_seq(s)` on the heap. -/
def Heap.set_seq (h : Heap) (m : MsgPtr) (s : Nat) : Heap :=
  Function.update h m ((h m).set_seq s)

/-- The effect of `m->set_recv_stamp(t)` on the heap. -/
def Heap.set_recv_stamp (h : Heap) (m : MsgPtr) (t : utime_t) : Heap :=
  Function.update h m ((h m).set_recv_stamp t)

/-- Modelled from the spec: `Mutex` (declared in `common/Mutex.h`, not among the
sources).  Only whether the mutex is held is recorded. -/
structure Mutex where
  locked : Bool
  deriving DecidableEq, Repr

/-- Modelled from the spec: `Mutex::Lock()` returns once the caller holds the mutex. -/
def Mutex.Lock (_l : Mutex) : Mutex := { locked := true }

/-- Modelled from the spec: `Mutex::Unlock()` releases the mutex. -/
def Mutex.Unlock (_l : Mutex) : Mutex := { locked := false }

/-- Modelled from the spec: `Cond` (declared in `common/Cond.h`, not among the
sources).  A condition variable keeps no memory of signals. -/
structure Cond where
  deriving DecidableEq, Repr

/-- Modelled from the spec: `Cond::Signal()` wakes a waiting loop; it leaves the
condition variable itself as it was. -/
def Cond.Signal (c : Cond) : Cond := c

/-- The modulus of a `__u32`. -/
def U32_MOD : Nat := 4294967296

/-- Pre-increment of a `__u32`: `++x`. -/
def u32_incr (x : Nat) : Nat := (x + 1) % U32_MOD

/-- The value an `int` holds when the mathematical result is `x`: `x` itself when
it lies in `[-2^31, 2^31)`, and otherwise the 32-bit two's complement wrap-around
(the language leaves overflow of `int` undefined). -/
def int32 (x : Int) : Int := (x + 2147483648) % 4294967296 - 2147483648

/-! ## `Rank::Pipe` -/

/-- The anonymous `enum` of pipe states (lines 69-77); `state` itself is an `int`. -/
def STATE_ACCEPTING : Int := 0

/-- Second enumerator. -/
def STATE_CONNECTING : Int := 1

/-- Third enumerator. -/
def STATE_OPEN : Int := 2

/-- Fourth enumerator. -/
def STATE_CLOSED : Int := 3

/-- Fifth enumerator. -/
def STATE_CLOSING : Int := 4

/-- The data members of `Rank::Pipe` that its inline member functions read or
write (lines 79-100). -/
structure Pipe where
  sd : Int
  lock : Mutex
  state : Int
  reader_running : Bool
  writer_running : Bool
  q : List MsgPtr
  sent : List MsgPtr
  cond : Cond
  connect_seq : Nat
  out_seq : Nat
  in_seq : Nat
  in_seq_acked : Nat
  deriving DecidableEq, Repr

/-- The states `send` passes through, one after each statement. -/
structure SendPoints where
  locked : Pipe × Heap
  queued : Pipe × Heap
  unlocked : Pipe × Heap

namespace Pipe

/-- The constructor `Pipe(int st)` (lines 138-144); the mutex, the condition
variable and the two lists are default-constructed. -/
def new (st : Int) : Pipe :=
  { sd := 0
    lock := { locked := false }
    state := st
    reader_running := false
    writer_running := false
    q := []
    sent := []
    cond := {}
    connect_seq := 0
    out_seq := 0
    in_seq := 0
    in_seq_acked := 0 }

/-- Lines 115-118: `take_queue(list<Message*>& ls)`.  `ls.splice(ls.begin(), x)`
moves all of `x` to the front of `ls` and leaves `x` empty. -/
def take_queue (p : Pipe) (ls : List MsgPtr) : Pipe × List MsgPtr :=
  -- ls.splice(ls.begin(), q);
  let ls := p.q ++ ls
  let p := { p with q := [] }
  -- ls.splice(ls.begin(), sent);
  let ls := p.sent ++ ls
  let p := { p with sent := [] }
  (p, ls)

/-- Lines 177-181: `_send(Message *m)`. -/
def _send (p : Pipe) (h : Heap) (m : MsgPtr) : Pipe × Heap :=
  -- q.push_back(m);
  let p := { p with q := p.q ++ [m] }
  -- m->set_seq(++out_seq);
  let p := { p with out_seq := u32_incr p.out_seq }
  let h := h.set_seq m p.out_seq
  -- cond.Signal();
  let p := { p with cond := p.cond.Signal }
  (p, h)

/-- Lines 172-176: `send(Message *m)`, statement by statement. -/
def send_points (p : Pipe) (h : Heap) (m : MsgPtr) : SendPoints :=
  -- lock.Lock();
  let p1 := { p with lock := p.lock.Lock }
  -- _send(m);
  let r2 := p1._send h m
  -- lock.Unlock();
  let p3 := { r2.1 with lock := r2.1.lock.Unlock }
  { locked := (p1, h)
    queued := r2
    unlocked := (p3, r2.2) }

/-- Lines 172-176: `send(Message *m)`: the state on return. -/
def send (p : Pipe) (h : Heap) (m : MsgPtr) : Pipe × Heap :=
  (send_points p h m).unlocked

/-- A run of `_send` calls, one per element of `ms`, in order. -/
def sends (p : Pipe) (h : Heap) : List MsgPtr → Pipe × Heap
  | [] => (p, h)
  | m :: ms => let (p1, h1) := p._send h m; sends p1 h1 ms

end Pipe

/-! ## `Rank::EntityMessenger` -/

/-- The data members of `Rank::EntityMessenger` (lines 191-197), with the name
held by its base class `Messenger`. -/
structure EntityMessenger where
  name : entity_name_t
  lock : Mutex
  cond : Cond
  dispatch_queue : List MsgPtr
  prio_dispatch_queue : List MsgPtr
  stop : Bool
  qlen : Int
  pqlen : Int
  my_rank : Int
  deriving DecidableEq, Repr

/-- The states `queue_message` passes through, one after each statement. -/
structure QueueMessagePoints where
  stamped : EntityMessenger × Heap
  locked : EntityMessenger × Heap
  queued : EntityMessenger × Heap
  signalled : EntityMessenger × Heap
  unlocked : EntityMessenger × Heap

namespace EntityMessenger

/-- The constructor `EntityMessenger(entity_name_t name, int r)` (lines 230-235);
the mutex, the condition variable and the two lists are default-constructed. -/
def new (name : entity_name_t) (r : Int) : EntityMessenger :=
  { name := name
    lock := { locked := false }
    cond := {}
    dispatch_queue := []
    prio_dispatch_queue := []
    stop := false
    qlen := 0
    pqlen := 0
    my_rank := r }

/-- Lines 213-227: `queue_message(Message *m)`, statement by statement; `now` is
the value `g_clock.now()` returns at the call. -/
def queue_message_points (e : EntityMessenger) (h : Heap) (now : utime_t) (m : MsgPtr) :
    QueueMessagePoints :=
  -- m->set_recv_stamp(g_clock.now());
  let h1 := h.set_recv_stamp m now
  -- lock.Lock();
  let e2 := { e with lock := e.lock.Lock }
  let e3 :=
    if ((h1 m).get_source).is_mon then
      -- prio_dispatch_queue.push_back(m);
      let e := { e2 with prio_dispatch_queue := e2.prio_dispatch_queue ++ [m] }
      -- pqlen++;
      { e with pqlen := int32 (e.pqlen + 1) }
    else
      -- qlen++;
      let e := { e2 with qlen := int32 (e2.qlen + 1) }
      -- dispatch_queue.push_back(m);
      { e with dispatch_queue := e.dispatch_queue ++ [m] }
  -- cond.Signal();
  let e4 := { e3 with cond := e3.cond.Signal }
  -- lock.Unlock();
  let e5 := { e4 with lock := e4.lock.Unlock }
  { stamped := (e, h1)
    locked := (e2, h1)
    queued := (e3, h1)
    signalled := (e4, h1)
    unlocked := (e5, h1) }

/-- Lines 213-227: `queue_message(Message *m)`: the state on return. -/
def queue_message (e : EntityMessenger) (h : Heap) (now : utime_t) (m : MsgPtr) :
    EntityMessenger × Heap :=
  (queue_message_points e h now m).unlocked

/-- A run of `queue_message` calls, one per element of the list (clock reading
and message), in order. -/
def queue_messages (e : EntityMessenger) (h : Heap) :
    List (utime_t × MsgPtr) → EntityMessenger × Heap
  | [] => (e, h)
  | c :: cs => let (e1, h1) := e.queue_message h c.1 c.2; queue_messages e1 h1 cs

/-- Line 243: `is_stopped()`. -/
def is_stopped (e : EntityMessenger) : Bool := e.stop

/-- Line 249: `get_dispatch_queue_len()`. -/
def get_dispatch_queue_len (e : EntityMessenger) : Int := int32 (e.qlen + e.pqlen)

end EntityMessenger

/-- A heap in which no message has been stamped yet and every source is of the
normal class. -/
def Heap.blank : Heap := fun _ => { seq := 0, recv_stamp := 0, source := { mon := false, num := 0 } }

/-- A heap of unstamped messages in which exactly the message at `p` comes from a
monitor. -/
def Heap.mon_at (p : MsgPtr) : Heap :=
  fun m => { seq := 0, recv_stamp := 0, source := { mon := decide (m = p), num := 0 } }

/-- An EntityMessenger whose normal queue holds `2^31 - 1` messages, counted by
`qlen`. -/
def EntityMessenger.full (name : entity_name_t) (r : Int) : EntityMessenger :=
  { EntityMessenger.new name r with
    dispatch_queue := List.replicate 2147483647 0
    qlen := 2147483647 }

/-! ## Theorems -/

/-! ### Runs of `_send` -/

/-- A run of `_send` calls appends its messages to `q` in order. -/
theorem sends_q (p : Pipe) (h : Heap) (ms : List MsgPtr) :
    (p.sends h ms).1.q = p.q ++ ms := by
  induction ms generalizing p h with
  | nil => simp [Pipe.sends]
  | cons m ms ih =>
    simp only [Pipe.sends]
    rw [ih]
    simp [Pipe._send]

/-- Without wrap-around, a run of `_send` calls advances `out_seq` by its length. -/
theorem sends_out_seq (p : Pipe) (h : Heap) (ms : List MsgPtr)
    (hb : p.out_seq + ms.length < U32_MOD) :
    (p.sends h ms).1.out_seq = p.out_seq + ms.length := by
  induction ms generalizing p h with
  | nil => simp [Pipe.sends]
  | cons m ms ih =>
    simp only [Pipe.sends]
    have h1 : (p._send h m).1.out_seq = p.out_seq + 1 := by
      simp only [Pipe._send, u32_incr]
      simp only [List.length_cons] at hb
      exact Nat.mod_eq_of_lt (by omega)
    rw [ih]
    · rw [h1, List.length_cons]; omega
    · rw [h1]; simp only [List.length_cons] at hb; omega

/-- A run over `as ++ bs` is the run over `as` followed by the run over `bs`. -/
theorem sends_append (p : Pipe) (h : Heap) (as bs : List MsgPtr) :
    p.sends h (as ++ bs) = (p.sends h as).1.sends (p.sends h as).2 bs := by
  induction as generalizing p h with
  | nil => simp [Pipe.sends]
  | cons m as ih =>
    simp only [List.cons_append, Pipe.sends]
    exact ih _ _

/-- One `_send` leaves every other message untouched. -/
theorem send_heap_other (p : Pipe) (h : Heap) (m x : MsgPtr) (hx : x ≠ m) :
    (p._send h m).2 x = h x := by
  simp [Pipe._send, Heap.set_seq, Function.update_noteq hx]

/-- A run of `_send` calls leaves the messages it does not enqueue untouched. -/
theorem sends_heap_not_mem (p : Pipe) (h : Heap) (ms : List MsgPtr) (x : MsgPtr)
    (hx : x ∉ ms) : (p.sends h ms).2 x = h x := by
  induction ms generalizing p h with
  | nil => simp [Pipe.sends]
  | cons m ms ih =>
    simp only [List.mem_cons, not_or] at hx
    simp only [Pipe.sends]
    rw [ih _ _ hx.2]
    exact send_heap_other p h m x hx.1

/-- The stamp the `k`-th call of a run gives, read right after that call. -/
theorem sends_stamp_at_call (p : Pipe) (h : Heap) (ms : List MsgPtr)
    (hb : p.out_seq + ms.length < U32_MOD) (k : Nat) (hk : k < ms.length) :
    ((p.sends h (ms.take (k + 1))).2 (ms.get ⟨k, hk⟩)).seq = p.out_seq + k + 1 := by
  have ht : ms.take (k + 1) = ms.take k ++ [ms.get ⟨k, hk⟩] := by
    rw [List.take_succ, List.getElem?_eq_getElem hk]
    rfl
  rw [ht, sends_append]
  have hlen : (ms.take k).length = k := by
    simp only [List.length_take]; omega
  have ho := sends_out_seq p h (ms.take k) (by rw [hlen]; omega)
  rw [hlen] at ho
  simp only [Pipe.sends, Pipe._send, Heap.set_seq, Message.set_seq, Function.update_same,
    u32_incr, ho]
  exact Nat.mod_eq_of_lt (by omega)

/-- For distinct messages the stamp of the `k`-th call is still there at the end of the run. -/
theorem sends_seq_nodup (p : Pipe) (h : Heap) (ms : List MsgPtr) (hnd : ms.Nodup)
    (hb : p.out_seq + ms.length < U32_MOD) (k : Nat) (hk : k < ms.length) :
    ((p.sends h ms).2 (ms.get ⟨k, hk⟩)).seq = p.out_seq + k + 1 := by
  have hsplit : ms = ms.take (k + 1) ++ ms.drop (k + 1) := (List.take_append_drop _ _).symm
  have hnot : ms.get ⟨k, hk⟩ ∉ ms.drop (k + 1) := by
    intro hmem
    obtain ⟨j, hj, hje⟩ := List.getElem_of_mem hmem
    rw [List.getElem_drop] at hje
    have hjlt : k + 1 + j < ms.length := by
      simp only [List.length_drop] at hj; omega
    have hinj := (List.nodup_iff_injective_get.1 hnd)
    have hfin : (⟨k + 1 + j, hjlt⟩ : Fin ms.length) = ⟨k, hk⟩ := hinj hje
    have := congrArg Fin.val hfin
    simp only at this
    omega
  have hrun : p.sends h ms
      = (p.sends h (ms.take (k + 1))).1.sends (p.sends h (ms.take (k + 1))).2 (ms.drop (k + 1)) := by
    rw [← sends_append, ← hsplit]
  rw [hrun, sends_heap_not_mem _ _ _ _ hnot]
  exact sends_stamp_at_call p h ms hb k hk


/-! ### Runs of `queue_message` -/

/-- One `queue_message` changes no message source. -/
theorem queue_message_source (e : EntityMessenger) (h : Heap) (now : utime_t) (m x : MsgPtr) :
    ((e.queue_message h now m).2 x).source = (h x).source := by
  simp only [EntityMessenger.queue_message, EntityMessenger.queue_message_points,
    Heap.set_recv_stamp]
  by_cases hx : x = m
  · subst hx; simp [Message.set_recv_stamp]
  · simp [Function.update_noteq hx]

/-- The priority queue after one `queue_message`. -/
theorem queue_message_prio (e : EntityMessenger) (h : Heap) (now : utime_t) (m : MsgPtr) :
    (e.queue_message h now m).1.prio_dispatch_queue
      = e.prio_dispatch_queue ++ (if ((h m).get_source).is_mon then [m] else []) := by
  by_cases hm : (h m).source.mon = true <;>
    simp [EntityMessenger.queue_message, EntityMessenger.queue_message_points,
      Heap.set_recv_stamp, Message.set_recv_stamp, Message.get_source, entity_name_t.is_mon, hm]

/-- The normal queue after one `queue_message`. -/
theorem queue_message_normal (e : EntityMessenger) (h : Heap) (now : utime_t) (m : MsgPtr) :
    (e.queue_message h now m).1.dispatch_queue
      = e.dispatch_queue ++ (if ((h m).get_source).is_mon then [] else [m]) := by
  by_cases hm : (h m).source.mon = true <;>
    simp [EntityMessenger.queue_message, EntityMessenger.queue_message_points,
      Heap.set_recv_stamp, Message.set_recv_stamp, Message.get_source, entity_name_t.is_mon, hm]

/-- Both queues after a run of `queue_message` calls from any EntityMessenger. -/
theorem queue_messages_queues (e : EntityMessenger) (h : Heap) (cs : List (utime_t × MsgPtr)) :
    (e.queue_messages h cs).1.prio_dispatch_queue
      = e.prio_dispatch_queue
          ++ (cs.map Prod.snd).filter (fun m => ((h m).get_source).is_mon) ∧
    (e.queue_messages h cs).1.dispatch_queue
      = e.dispatch_queue
          ++ (cs.map Prod.snd).filter (fun m => !((h m).get_source).is_mon) := by
  induction cs generalizing e h with
  | nil => simp [EntityMessenger.queue_messages]
  | cons c cs ih =>
    simp only [EntityMessenger.queue_messages]
    have hsrc : ∀ x, (((e.queue_message h c.1 c.2).2 x).get_source).is_mon
        = ((h x).get_source).is_mon := by
      intro x
      simp only [Message.get_source, queue_message_source]
    obtain ⟨ihp, ihn⟩ := ih (e.queue_message h c.1 c.2).1 (e.queue_message h c.1 c.2).2
    rw [ihp, ihn, queue_message_prio, queue_message_normal]
    simp only [hsrc, List.map_cons, List.filter_cons]
    by_cases hm : ((h c.2).get_source).is_mon = true <;> simp [hm]

/-- The normal-class counter, queue length and total after enqueueing a normal message. -/
theorem queue_message_full_normal (e : EntityMessenger) (h : Heap) (now : utime_t) (m : MsgPtr)
    (hm : ((h m).get_source).is_mon = false) :
    (e.queue_message h now m).1.qlen = int32 (e.qlen + 1) ∧
    (e.queue_message h now m).1.dispatch_queue.length = e.dispatch_queue.length + 1 ∧
    (e.queue_message h now m).1.get_dispatch_queue_len = int32 (int32 (e.qlen + 1) + e.pqlen) := by
  simp only [Message.get_source, entity_name_t.is_mon] at hm
  simp [EntityMessenger.queue_message, EntityMessenger.queue_message_points,
    Heap.set_recv_stamp, Message.set_recv_stamp, Message.get_source, entity_name_t.is_mon,
    EntityMessenger.get_dispatch_queue_len, hm]

/-- C1: `_send(m)` leaves `q` equal to the old `q` with `m` appended at the
tail, and leaves `sent`, `in_seq`, `in_seq_acked`, `connect_seq` and `state`
unchanged. -/
theorem send_appends_to_queue (p : Pipe) (h : Heap) (m : MsgPtr) :
    (p._send h m).1.q = p.q ++ [m] ∧
    (p._send h m).1.sent = p.sent ∧
    (p._send h m).1.in_seq = p.in_seq ∧
    (p._send h m).1.in_seq_acked = p.in_seq_acked ∧
    (p._send h m).1.connect_seq = p.connect_seq ∧
    (p._send h m).1.state = p.state := by
  simp [Pipe._send]

/-- C2, as stated, fails when the counter wraps: with `out_seq = 2^32 - 2` the
first `_send` stamps `2^32 - 1` and the next one stamps `0`. -/
theorem send_seq_wraps :
    ¬ ((({ Pipe.new STATE_OPEN with out_seq := 4294967294 }._send Heap.blank 0).2 0).seq <
        ((({ Pipe.new STATE_OPEN with out_seq := 4294967294 }._send Heap.blank 0).1._send
          ({ Pipe.new STATE_OPEN with out_seq := 4294967294 }._send Heap.blank 0).2 1).2 1).seq) := by
  decide

/-- C2 (amended): the sequence number a `_send` stamps is the one stamped by the
preceding `_send` on the same Pipe plus one, modulo `2^32`: when `out_seq` is
below `2^32 - 1` before the call it is exactly one greater, so strictly greater;
when `out_seq` is `2^32 - 1` the counter wraps and the message is stamped `0`,
below the preceding `2^32 - 1`. -/
theorem send_seq_increasing (p : Pipe) (h : Heap) (m1 m2 : MsgPtr) :
    ((p._send h m1).2 m1).seq = (p._send h m1).1.out_seq ∧
    (((p._send h m1).1._send (p._send h m1).2 m2).2 m2).seq
      = (((p._send h m1).2 m1).seq + 1) % 4294967296 ∧
    ((p._send h m1).1.out_seq < 4294967295 →
      (((p._send h m1).1._send (p._send h m1).2 m2).2 m2).seq
        = ((p._send h m1).2 m1).seq + 1 ∧
      ((p._send h m1).2 m1).seq
        < (((p._send h m1).1._send (p._send h m1).2 m2).2 m2).seq) ∧
    ((p._send h m1).1.out_seq = 4294967295 →
      (((p._send h m1).1._send (p._send h m1).2 m2).2 m2).seq = 0 ∧
      ((p._send h m1).2 m1).seq = 4294967295 ∧
      ¬ ((p._send h m1).2 m1).seq
        < (((p._send h m1).1._send (p._send h m1).2 m2).2 m2).seq) := by
  refine ⟨?_, ?_, fun hlt => ?_, fun heq => ?_⟩
  · simp [Pipe._send, Heap.set_seq, Message.set_seq]
  · simp [Pipe._send, Heap.set_seq, Message.set_seq, u32_incr, U32_MOD]
  · simp only [Pipe._send, Heap.set_seq, Message.set_seq, Cond.Signal, Function.update_same,
      u32_incr, U32_MOD] at hlt ⊢
    omega
  · simp only [Pipe._send, Heap.set_seq, Message.set_seq, Cond.Signal, Function.update_same,
      u32_incr, U32_MOD] at heq ⊢
    omega

/-- Witness: on a newly constructed Pipe the second stamp is one above the first;
on a Pipe with `out_seq = 2^32 - 2` the first stamp is `2^32 - 1` and the second
is `0`. -/
theorem send_seq_increasing_witness :
    (((Pipe.new STATE_OPEN)._send Heap.blank 0).2 0).seq <
      ((((Pipe.new STATE_OPEN)._send Heap.blank 0).1._send
        ((Pipe.new STATE_OPEN)._send Heap.blank 0).2 1).2 1).seq ∧
    (((({ Pipe.new STATE_OPEN with out_seq := 4294967294 } : Pipe)._send Heap.blank 0).1._send
        (({ Pipe.new STATE_OPEN with out_seq := 4294967294 } : Pipe)._send Heap.blank 0).2 1).2
          1).seq = 0 :=
  ⟨((send_seq_increasing (Pipe.new STATE_OPEN) Heap.blank 0 1).2.2.1 (by decide)).2,
   ((send_seq_increasing ({ Pipe.new STATE_OPEN with out_seq := 4294967294 } : Pipe)
      Heap.blank 0 1).2.2.2 (by decide)).1⟩

/-- C3, as stated, fails on a new Pipe: `out_seq` is `0` before the call and
the message is stamped `1`. -/
theorem send_stamp_not_old_out_seq :
    (((Pipe.new STATE_OPEN)._send Heap.blank 0).2 0).seq ≠ (Pipe.new STATE_OPEN).out_seq := by
  decide

/-- C3 (amended): `_send(m)` first increments `out_seq` modulo `2^32` and stamps
`m` with the incremented value, so `out_seq` is the last sequence number
assigned; the stamp and the new `out_seq` are the old `out_seq` plus one
whenever the old value is below `2^32 - 1`. -/
theorem send_stamps_incremented_out_seq (p : Pipe) (h : Heap) (m : MsgPtr) :
    ((p._send h m).2 m).seq = (p._send h m).1.out_seq ∧
    (p._send h m).1.out_seq = (p.out_seq + 1) % 4294967296 ∧
    (p.out_seq < 4294967295 →
      (p._send h m).1.out_seq = p.out_seq + 1 ∧ ((p._send h m).2 m).seq = p.out_seq + 1) := by
  refine ⟨?_, rfl, fun hlt => ?_⟩
  · simp [Pipe._send, Heap.set_seq, Message.set_seq]
  · simp only [Pipe._send, Heap.set_seq, Message.set_seq, Cond.Signal, Function.update_same,
      u32_incr, U32_MOD]
    omega

/-- Witness on a newly constructed Pipe. -/
theorem send_stamps_incremented_out_seq_witness :
    (((Pipe.new STATE_OPEN)._send Heap.blank 0).2 0).seq = 1 ∧
    ((Pipe.new STATE_OPEN)._send Heap.blank 0).1.out_seq = 1 :=
  ⟨((send_stamps_incremented_out_seq (Pipe.new STATE_OPEN) Heap.blank 0).2.2 (by decide)).2,
   ((send_stamps_incremented_out_seq (Pipe.new STATE_OPEN) Heap.blank 0).2.2 (by decide)).1⟩

/-- C4: `take_queue(ls)` leaves `ls` equal to old `sent ++ q ++ ls` (so every
message is there as often as it was in the three lists together) and leaves both
`q` and `sent` empty. -/
theorem take_queue_collects (p : Pipe) (ls : List MsgPtr) :
    (p.take_queue ls).2 = p.sent ++ p.q ++ ls ∧
    (∀ m, (p.take_queue ls).2.count m = p.sent.count m + p.q.count m + ls.count m) ∧
    (p.take_queue ls).1.q = [] ∧
    (p.take_queue ls).1.sent = [] := by
  refine ⟨by simp [Pipe.take_queue], fun m => ?_, rfl, rfl⟩
  simp only [Pipe.take_queue, List.count_append]
  omega

/-- C5: a second `take_queue` right after a first one changes neither `ls` nor
the Pipe. -/
theorem take_queue_twice (p : Pipe) (ls : List MsgPtr) :
    (p.take_queue ls).1.take_queue (p.take_queue ls).2 = p.take_queue ls := by
  simp [Pipe.take_queue]

/-- C9: with the lock free on entry, `send(m)` first takes the lock, changing
nothing else; it then makes the change of `_send(m)` to `q`, `out_seq` and the
sequence number of `m` with the lock held before and after; it then releases the
lock, changing nothing else; on return the Pipe and the message are as
`_send(m)` alone leaves them and the lock is free, as on entry. -/
theorem send_is_locked_send (p : Pipe) (h : Heap) (m : MsgPtr) (hfree : p.lock.locked = false) :
    ((p.send_points h m).locked.1.lock.locked = true ∧
      (p.send_points h m).locked.1.q = p.q ∧
      (p.send_points h m).locked.1.out_seq = p.out_seq ∧
      (p.send_points h m).locked.2 = h) ∧
    ((p.send_points h m).queued
        = (p.send_points h m).locked.1._send (p.send_points h m).locked.2 m ∧
      (p.send_points h m).queued.1.lock.locked = true ∧
      (p.send_points h m).queued.1.q = (p._send h m).1.q ∧
      (p.send_points h m).queued.1.out_seq = (p._send h m).1.out_seq ∧
      (p.send_points h m).queued.2 = (p._send h m).2) ∧
    ((p.send_points h m).unlocked.1.lock.locked = false ∧
      (p.send_points h m).unlocked.1.q = (p.send_points h m).queued.1.q ∧
      (p.send_points h m).unlocked.1.out_seq = (p.send_points h m).queued.1.out_seq ∧
      (p.send_points h m).unlocked.2 = (p.send_points h m).queued.2) ∧
    p.send h m = (p.send_points h m).unlocked ∧
    (p.send h m).1.q = (p._send h m).1.q ∧
    (p.send h m).1.out_seq = (p._send h m).1.out_seq ∧
    ((p.send h m).2 m).seq = ((p._send h m).2 m).seq ∧
    p.send h m = p._send h m ∧
    (p.send h m).1.lock.locked = p.lock.locked := by
  obtain ⟨sd, ⟨lk⟩, st, rr, wr, q, snt, cnd, cs, os, is, isa⟩ := p
  simp only at hfree
  subst hfree
  simp [Pipe.send, Pipe.send_points, Pipe._send, Mutex.Lock, Mutex.Unlock]

/-- Witness on a newly constructed Pipe: the lock is held once `_send` is done,
and the call returns what `_send` alone gives. -/
theorem send_is_locked_send_witness :
    ((Pipe.new STATE_OPEN).send_points Heap.blank 0).queued.1.lock.locked = true ∧
    (Pipe.new STATE_OPEN).send Heap.blank 0 = (Pipe.new STATE_OPEN)._send Heap.blank 0 :=
  ⟨(send_is_locked_send (Pipe.new STATE_OPEN) Heap.blank 0 rfl).2.1.2.1,
   (send_is_locked_send (Pipe.new STATE_OPEN) Heap.blank 0 rfl).2.2.2.2.2.2.2.1⟩

/-- C8, as stated, fails when one message object is enqueued twice: both queue
entries are the same pointer, whose sequence number is that of the last call,
so the first entry does not carry `1` and the queue is not strictly
increasing. -/
theorem sends_same_message_twice :
    ((Pipe.new STATE_OPEN).sends Heap.blank [5, 5]).1.q = [5, 5] ∧
    (((Pipe.new STATE_OPEN).sends Heap.blank [5, 5]).2 5).seq = 2 ∧
    ¬ List.Pairwise (fun a b => a < b)
        ((((Pipe.new STATE_OPEN).sends Heap.blank [5, 5]).1.q).map
          (fun m => (((Pipe.new STATE_OPEN).sends Heap.blank [5, 5]).2 m).seq)) := by
  decide

/-- C8 (amended): after `n < 2^32` calls of `_send` on a newly constructed Pipe
(all counters `0`, `q` and `sent` empty, `state = st`), `q` holds the `n`
messages in enqueue order, the `k`-th call stamps its message with `k` (the first
with `1`), and `out_seq` is `n`; when the `n` messages are pairwise distinct
objects, the `k`-th queued message still carries `k` at the end, so the queue is
in strictly increasing sequence order from head to tail. -/
theorem sends_on_new_pipe (st : Int) (h : Heap) (ms : List MsgPtr)
    (hn : ms.length < 4294967296) :
    ((Pipe.new st).out_seq = 0 ∧ (Pipe.new st).in_seq = 0 ∧ (Pipe.new st).in_seq_acked = 0 ∧
      (Pipe.new st).connect_seq = 0 ∧ (Pipe.new st).q = [] ∧ (Pipe.new st).sent = [] ∧
      (Pipe.new st).state = st) ∧
    ((Pipe.new st).sends h ms).1.q = ms ∧
    ((Pipe.new st).sends h ms).1.out_seq = ms.length ∧
    (∀ (k : Nat) (hk : k < ms.length),
      (((Pipe.new st).sends h (ms.take (k + 1))).2 (ms.get ⟨k, hk⟩)).seq = k + 1) ∧
    (ms.Nodup →
      (∀ (k : Nat) (hk : k < ms.length),
        (((Pipe.new st).sends h ms).2 (ms.get ⟨k, hk⟩)).seq = k + 1) ∧
      List.Pairwise (fun a b => a < b)
        ((((Pipe.new st).sends h ms).1.q).map (fun m => (((Pipe.new st).sends h ms).2 m).seq))) := by
  have hb : (Pipe.new st).out_seq + ms.length < U32_MOD := by
    simp only [Pipe.new, U32_MOD]; omega
  have hq : ((Pipe.new st).sends h ms).1.q = ms := by
    rw [sends_q]; rfl
  refine ⟨⟨rfl, rfl, rfl, rfl, rfl, rfl, rfl⟩, hq, ?_, ?_, ?_⟩
  · rw [sends_out_seq _ _ _ hb]; simp [Pipe.new]
  · intro k hk
    rw [sends_stamp_at_call _ _ _ hb k hk]; simp [Pipe.new]
  · intro hnd
    have hseq : ∀ (k : Nat) (hk : k < ms.length),
        (((Pipe.new st).sends h ms).2 (ms.get ⟨k, hk⟩)).seq = k + 1 := by
      intro k hk
      rw [sends_seq_nodup _ _ _ hnd hb k hk]; simp [Pipe.new]
    refine ⟨hseq, ?_⟩
    rw [hq, List.pairwise_iff_getElem]
    intro i j hi hj hij
    simp only [List.length_map] at hi hj
    simp only [List.getElem_map]
    have h1 := hseq i hi
    have h2 := hseq j hj
    simp only [List.get_eq_getElem] at h1 h2
    omega

/-- Witness: three distinct messages. -/
theorem sends_on_new_pipe_witness :
    ((Pipe.new STATE_CONNECTING).sends Heap.blank [7, 8, 9]).1.q = [7, 8, 9] ∧
    ((Pipe.new STATE_CONNECTING).sends Heap.blank [7, 8, 9]).1.out_seq = 3 ∧
    List.Pairwise (fun a b => a < b)
      ((((Pipe.new STATE_CONNECTING).sends Heap.blank [7, 8, 9]).1.q).map
        (fun m => (((Pipe.new STATE_CONNECTING).sends Heap.blank [7, 8, 9]).2 m).seq)) :=
  ⟨(sends_on_new_pipe STATE_CONNECTING Heap.blank [7, 8, 9] (by decide)).2.1,
   (sends_on_new_pipe STATE_CONNECTING Heap.blank [7, 8, 9] (by decide)).2.2.1,
   ((sends_on_new_pipe STATE_CONNECTING Heap.blank [7, 8, 9] (by decide)).2.2.2.2 (by decide)).2⟩

/-- C6: after any run of `queue_message` calls on a newly constructed
EntityMessenger, `prio_dispatch_queue` holds exactly the messages whose source
`is_mon()`, in arrival order, and `dispatch_queue` holds exactly the others, in
arrival order; after enqueues of N1 (normal), P1 (monitor), N2 (normal) the
priority queue followed by the normal queue is P1, N1, N2. -/
theorem queue_message_splits_by_class (name : entity_name_t) (r : Int) (h : Heap)
    (cs : List (utime_t × MsgPtr)) :
    ((EntityMessenger.new name r).queue_messages h cs).1.prio_dispatch_queue
      = (cs.map Prod.snd).filter (fun m => ((h m).get_source).is_mon) ∧
    ((EntityMessenger.new name r).queue_messages h cs).1.dispatch_queue
      = (cs.map Prod.snd).filter (fun m => !((h m).get_source).is_mon) ∧
    (∀ (n1 p1 n2 : MsgPtr) (t1 t2 t3 : utime_t),
      ((h n1).get_source).is_mon = false →
      ((h p1).get_source).is_mon = true →
      ((h n2).get_source).is_mon = false →
      ((EntityMessenger.new name r).queue_messages h
          [(t1, n1), (t2, p1), (t3, n2)]).1.prio_dispatch_queue
        ++ ((EntityMessenger.new name r).queue_messages h
          [(t1, n1), (t2, p1), (t3, n2)]).1.dispatch_queue
        = [p1, n1, n2]) := by
  refine ⟨?_, ?_, ?_⟩
  · rw [(queue_messages_queues _ h cs).1]; simp [EntityMessenger.new]
  · rw [(queue_messages_queues _ h cs).2]; simp [EntityMessenger.new]
  · intro n1 p1 n2 t1 t2 t3 h1 h2 h3
    rw [(queue_messages_queues _ h _).1, (queue_messages_queues _ h _).2]
    simp [EntityMessenger.new, List.filter_cons, h1, h2, h3]

/-- Witness: N1 = 0, P1 = 1, N2 = 2 on a heap
where only message 1 comes from a monitor. -/
theorem queue_message_splits_by_class_witness :
    ((EntityMessenger.new { mon := false, num := 0 } 0).queue_messages (Heap.mon_at 1)
        [(10, 0), (11, 1), (12, 2)]).1.prio_dispatch_queue
      ++ ((EntityMessenger.new { mon := false, num := 0 } 0).queue_messages (Heap.mon_at 1)
        [(10, 0), (11, 1), (12, 2)]).1.dispatch_queue
      = [1, 0, 2] :=
  (queue_message_splits_by_class { mon := false, num := 0 } 0 (Heap.mon_at 1) []).2.2
    0 1 2 10 11 12 (by decide) (by decide) (by decide)

/-- C7: `queue_message(m)` first sets the receive stamp of `m` to the clock
reading `now`, with nothing inserted yet; the message it then appends to the
queue of its class, priority or normal, carries that stamp, and still does on
return. -/
theorem queue_message_stamps_then_queues (e : EntityMessenger) (h : Heap) (now : utime_t)
    (m : MsgPtr) :
    (((e.queue_message_points h now m).stamped.2 m).recv_stamp = now ∧
      (e.queue_message_points h now m).stamped.1 = e) ∧
    (((e.queue_message_points h now m).locked.2 m).recv_stamp = now ∧
      (e.queue_message_points h now m).locked.1.dispatch_queue = e.dispatch_queue ∧
      (e.queue_message_points h now m).locked.1.prio_dispatch_queue = e.prio_dispatch_queue) ∧
    (((e.queue_message_points h now m).queued.2 m).recv_stamp = now ∧
      (((h m).get_source).is_mon = true →
        (e.queue_message_points h now m).queued.1.prio_dispatch_queue
          = e.prio_dispatch_queue ++ [m]) ∧
      (((h m).get_source).is_mon = false →
        (e.queue_message_points h now m).queued.1.dispatch_queue
          = e.dispatch_queue ++ [m])) ∧
    (((e.queue_message h now m).2 m).recv_stamp = now ∧
      (((h m).get_source).is_mon = true →
        (e.queue_message h now m).1.prio_dispatch_queue = e.prio_dispatch_queue ++ [m]) ∧
      (((h m).get_source).is_mon = false →
        (e.queue_message h now m).1.dispatch_queue = e.dispatch_queue ++ [m])) := by
  by_cases hm : (h m).source.mon = true <;>
    simp [EntityMessenger.queue_message, EntityMessenger.queue_message_points,
      Heap.set_recv_stamp, Message.set_recv_stamp, Message.get_source, entity_name_t.is_mon, hm]

/-- Witness: a monitor message and a normal
one, stamped with the clock reading 42. -/
theorem queue_message_stamps_then_queues_witness :
    ((EntityMessenger.new { mon := false, num := 0 } 0).queue_message (Heap.mon_at 1) 42
        1).1.prio_dispatch_queue = [1] ∧
    ((EntityMessenger.new { mon := false, num := 0 } 0).queue_message (Heap.mon_at 1) 42
        2).1.dispatch_queue = [2] :=
  ⟨(queue_message_stamps_then_queues (EntityMessenger.new { mon := false, num := 0 } 0)
      (Heap.mon_at 1) 42 1).2.2.2.2.1 (by decide),
   (queue_message_stamps_then_queues (EntityMessenger.new { mon := false, num := 0 } 0)
      (Heap.mon_at 1) 42 2).2.2.2.2.2 (by decide)⟩

/-- C10, as stated, fails at the top of the `int` range: with `2^31 - 1` messages
in the normal queue and `qlen = 2^31 - 1` the counters track the queues, but
after one more `queue_message` the queue holds `2^31` messages, which `qlen`
cannot hold, and `get_dispatch_queue_len()` has not gone up by one. -/
theorem queue_message_counter_overflow :
    ((EntityMessenger.full { mon := false, num := 0 } 0).qlen
        = (EntityMessenger.full { mon := false, num := 0 } 0).dispatch_queue.length ∧
      (EntityMessenger.full { mon := false, num := 0 } 0).pqlen
        = (EntityMessenger.full { mon := false, num := 0 } 0).prio_dispatch_queue.length) ∧
    ((EntityMessenger.full { mon := false, num := 0 } 0).queue_message Heap.blank 0 0).1.qlen
      ≠ ((EntityMessenger.full { mon := false, num := 0 } 0).queue_message
          Heap.blank 0 0).1.dispatch_queue.length ∧
    ((EntityMessenger.full { mon := false, num := 0 } 0).queue_message
        Heap.blank 0 0).1.get_dispatch_queue_len
      ≠ (EntityMessenger.full { mon := false, num := 0 } 0).get_dispatch_queue_len + 1 := by
  have hlen : (EntityMessenger.full { mon := false, num := 0 } 0).dispatch_queue.length
      = 2147483647 := List.length_replicate _ _
  have hq : (EntityMessenger.full { mon := false, num := 0 } 0).qlen = 2147483647 := rfl
  have hp : (EntityMessenger.full { mon := false, num := 0 } 0).pqlen = 0 := rfl
  have hpl : (EntityMessenger.full { mon := false, num := 0 } 0).prio_dispatch_queue = [] := rfl
  have hm : ((Heap.blank 0).get_source).is_mon = false := rfl
  have hmon := queue_message_full_normal (EntityMessenger.full { mon := false, num := 0 } 0)
    Heap.blank 0 0 hm
  rw [hmon.1, hmon.2.1, hmon.2.2, hlen, hq, hp, hpl]
  simp only [EntityMessenger.get_dispatch_queue_len, int32, hq, hp]
  refine ⟨⟨by norm_num, by simp⟩, by norm_num, by norm_num⟩

/-- C10 (amended): a newly constructed EntityMessenger has `qlen`, `pqlen` zero
and both queues empty; if `qlen` and `pqlen` equal the lengths of
`dispatch_queue` and `prio_dispatch_queue` and the counter of the class of `m`
is below `2^31 - 1`, the same holds after `queue_message(m)`; if
`get_dispatch_queue_len()` is below `2^31 - 1`, the call raises it by exactly 1;
the call leaves the counter and the queue of the other class, the stop flag,
the name and the rank unchanged, and the lock as it was when free on entry. -/
theorem queue_message_counters (e : EntityMessenger) (h : Heap) (now : utime_t) (m : MsgPtr) :
    (∀ (name : entity_name_t) (r : Int),
      (EntityMessenger.new name r).qlen = (EntityMessenger.new name r).dispatch_queue.length ∧
      (EntityMessenger.new name r).pqlen
        = (EntityMessenger.new name r).prio_dispatch_queue.length ∧
      (EntityMessenger.new name r).get_dispatch_queue_len = 0) ∧
    (e.qlen = e.dispatch_queue.length → e.pqlen = e.prio_dispatch_queue.length →
      (if ((h m).get_source).is_mon then e.pqlen else e.qlen) < 2147483647 →
      (e.queue_message h now m).1.qlen = (e.queue_message h now m).1.dispatch_queue.length ∧
      (e.queue_message h now m).1.pqlen
        = (e.queue_message h now m).1.prio_dispatch_queue.length) ∧
    (e.get_dispatch_queue_len < 2147483647 →
      (e.queue_message h now m).1.get_dispatch_queue_len = e.get_dispatch_queue_len + 1) ∧
    (((h m).get_source).is_mon = true →
      (e.queue_message h now m).1.qlen = e.qlen ∧
      (e.queue_message h now m).1.dispatch_queue = e.dispatch_queue) ∧
    (((h m).get_source).is_mon = false →
      (e.queue_message h now m).1.pqlen = e.pqlen ∧
      (e.queue_message h now m).1.prio_dispatch_queue = e.prio_dispatch_queue) ∧
    (e.queue_message h now m).1.stop = e.stop ∧
    (e.queue_message h now m).1.is_stopped = e.is_stopped ∧
    (e.queue_message h now m).1.name = e.name ∧
    (e.queue_message h now m).1.my_rank = e.my_rank ∧
    (e.lock.locked = false → (e.queue_message h now m).1.lock = e.lock) := by
  refine ⟨fun name r => ⟨rfl, rfl, rfl⟩, ?_, ?_, ?_, ?_, ?_, ?_, ?_, ?_, ?_⟩
  · intro hq hp hlt
    by_cases hm : (h m).source.mon = true <;>
      simp only [EntityMessenger.queue_message, EntityMessenger.queue_message_points,
        Heap.set_recv_stamp, Message.set_recv_stamp, Message.get_source, entity_name_t.is_mon,
        Function.update_same, hm, if_true, if_false, Bool.false_eq_true,
        List.length_append, List.length_singleton, Nat.cast_add, Nat.cast_one, int32]
        at hlt ⊢ <;>
      omega
  · intro hlt
    by_cases hm : (h m).source.mon = true <;>
      simp only [EntityMessenger.queue_message, EntityMessenger.queue_message_points,
        Heap.set_recv_stamp, Message.set_recv_stamp, Message.get_source, entity_name_t.is_mon,
        Function.update_same, hm, if_true, if_false, Bool.false_eq_true,
        EntityMessenger.get_dispatch_queue_len, int32] at hlt ⊢ <;>
      omega
  all_goals
    by_cases hm : (h m).source.mon = true <;>
      simp [EntityMessenger.queue_message, EntityMessenger.queue_message_points,
        Heap.set_recv_stamp, Message.set_recv_stamp, Message.get_source, entity_name_t.is_mon,
        EntityMessenger.is_stopped, Mutex.Unlock, hm]
  all_goals
    intro hl
    cases hlk : e.lock
    simp_all

/-- Witness on a newly constructed EntityMessenger. -/
theorem queue_message_counters_witness :
    ((EntityMessenger.new { mon := false, num := 0 } 0).queue_message Heap.blank 3 0).1.qlen
      = ((EntityMessenger.new { mon := false, num := 0 } 0).queue_message
          Heap.blank 3 0).1.dispatch_queue.length ∧
    ((EntityMessenger.new { mon := false, num := 0 } 0).queue_message
        Heap.blank 3 0).1.get_dispatch_queue_len
      = (EntityMessenger.new { mon := false, num := 0 } 0).get_dispatch_queue_len + 1 :=
  ⟨((queue_message_counters (EntityMessenger.new { mon := false, num := 0 } 0)
      Heap.blank 3 0).2.1 rfl rfl (by decide)).1,
   (queue_message_counters (EntityMessenger.new { mon := false, num := 0 } 0)
      Heap.blank 3 0).2.2.1 (by decide)⟩

end SimpleMessenger
